import Mathlib

/-!
# Verification of the client-side asynchronous ingestion tracking subsystem

Shallow embedding of `apps/web/src/features/rag/hooks/use-lightrag.tsx`
(the `useLightRAG` React hook): the document catalog, the submission
coordinator (`uploadFile` / `uploadText`), the reconciliation scheduler
(`checkUploadComplete`), document deletion (`deleteDocument`,
`clearDocuments`) and the catalog refresh (`listDocuments`).

Network I/O is embedded by passing the outcome of each `fetch` call as an
explicit argument (`FetchResult`); React `useState` state is embedded as an
explicit record `HookState` threaded through the operations; the observable
side effects of a call (toast notifications, values returned to the caller,
timers scheduled) are returned alongside the updated state.
-/

set_option autoImplicit false

namespace UseLightRAG

/-- Lifecycle status of a document, from the `LightRAGDocument` TS interface:
`"processed" | "processing" | "failed"`. `processing` is the only
non-terminal value. -/
inductive DocStatus where
  | processed
  | processing
  | failed
deriving DecidableEq, Repr

/-- One document record as reported by the server (`LightRAGDocument`).
The open-ended `metadata` map is not read anywhere in the hook and is
omitted. -/
structure LightRAGDocument where
  id : String
  content_summary : String
  content_length : Nat
  status : DocStatus
  created_at : String
  updated_at : String
  track_id : Option String
  chunks_count : Nat
  error_msg : Option String
  file_path : String
deriving DecidableEq, Repr

/-- Body of the list-status response (`LightRAGDocumentsResponse`):
`statuses.processed` is required, `statuses.processing` and
`statuses.failed` are optional in the TS interface. -/
structure LightRAGDocumentsResponse where
  processed : List LightRAGDocument
  processing : Option (List LightRAGDocument)
  failed : Option (List LightRAGDocument)
deriving DecidableEq, Repr

/-- Result status of an upload response (`LightRAGUploadResponse.status`). -/
inductive UploadStatus where
  | success
  | duplicated
  | error
deriving DecidableEq, Repr

/-- Body of an upload response (`LightRAGUploadResponse`). -/
structure LightRAGUploadResponse where
  status : UploadStatus
  message : String
  track_id : Option String
deriving DecidableEq, Repr

/-- Result of one `fetch` call: a parsed `ok` body, a non-success HTTP
status (`response.ok` false, carrying `response.status` and
`response.statusText`), or a thrown network error. -/
inductive FetchResult (α : Type) where
  | ok (body : α)
  | httpError (status : Nat) (statusText : String)
  | networkError (message : String)
deriving DecidableEq, Repr

/-- A user-facing toast notification (the `sonner` calls in the hook). -/
inductive Toast where
  | error (message : String)
  | warning (message : String)
  | success (message : String)
deriving DecidableEq, Repr

/-- The hook's `useState` cells relevant to the catalog:
`documents`, `documentsLoading`, `uploading`, `querying`,
`processingDocuments` and `updateTrigger`. -/
structure HookState where
  documents : List LightRAGDocument
  documentsLoading : Bool
  uploading : Bool
  querying : Bool
  processingDocuments : List String
  updateTrigger : Nat
deriving DecidableEq, Repr

/-- `[...(data.statuses.processed || []), ...(data.statuses.processing || []),
...(data.statuses.failed || [])]` — the flattened catalog built by
`listDocuments` from a list response. -/
def allDocsOf (data : LightRAGDocumentsResponse) : List LightRAGDocument :=
  data.processed ++ data.processing.getD [] ++ data.failed.getD []

/-- Everything observable about one `listDocuments` call: the updated hook
state, the value returned to the caller, the toasts raised, and the number
of list fetches issued by the call. -/
structure ListResult where
  state : HookState
  returned : List LightRAGDocument
  toasts : List Toast
  fetches : Nat
deriving DecidableEq, Repr

/-- `listDocuments` (lines 89–151): issues one unconditional GET fetch; on a
parsed body it flattens the three partitions into `documents`, sets
`processingDocuments` to the ids of the `processing` partition, bumps
`updateTrigger`, and returns the flattened list; on a non-ok response or a
thrown error it raises an error toast and returns `[]`, leaving `documents`
and `processingDocuments` untouched. `documentsLoading` is set on entry and
cleared in `finally`, so the post-state always has it `false`. On the
non-ok path the code first throws
`Failed to fetch documents: statusText` and the catch handler prepends the
same prefix again when building the toast. -/
def listDocuments (s : HookState) (r : FetchResult LightRAGDocumentsResponse) :
    ListResult :=
  match r with
  | FetchResult.ok data =>
    let allDocs := allDocsOf data
    let currentProcessing := (data.processing.getD []).map (fun d => d.id)
    { state := { s with documents := allDocs,
                        processingDocuments := currentProcessing,
                        updateTrigger := s.updateTrigger + 1,
                        documentsLoading := false },
      returned := allDocs,
      toasts := [],
      fetches := 1 }
  | FetchResult.httpError _ statusText =>
    { state := { s with documentsLoading := false },
      returned := [],
      toasts := [Toast.error
        ("Failed to fetch documents: Failed to fetch documents: " ++ statusText)],
      fetches := 1 }
  | FetchResult.networkError message =>
    { state := { s with documentsLoading := false },
      returned := [],
      toasts := [Toast.error ("Failed to fetch documents: " ++ message)],
      fetches := 1 }

/-- One `listDocuments` (refresh) call in an interleaved execution:
`startTime` is when the call began (when its fetch was issued), `response`
is what its fetch eventually produced. -/
structure RefreshCall where
  startTime : Nat
  response : FetchResult LightRAGDocumentsResponse
deriving DecidableEq, Repr

/-- State reached after the responses of a set of interleaved refresh calls
have been processed, given in response-arrival order. Each arriving
response runs the corresponding branch of `listDocuments` on the current
state. This fold is the exact semantics of the source under any
interleaving: every state write in `listDocuments` stores a value computed
solely from that call's own response (`setDocuments([...allDocs])`,
`setProcessingDocuments([...currentProcessing])`) or is a functional update
(`setUpdateTrigger(prev => prev + 1)`), so the final state depends only on
the order in which responses are processed, never on how the calls
overlapped. -/
def runCompletions (s : HookState) (arrivals : List RefreshCall) : HookState :=
  arrivals.foldl (fun st c => (listDocuments st c.response).state) s

/-- Total number of list fetches issued by a set of refresh calls: each call
issues its fetch unconditionally before inspecting any state. -/
def totalFetches (s : HookState) : List RefreshCall → Nat
  | [] => 0
  | c :: rest =>
    let r := listDocuments s c.response
    r.fetches + totalFetches r.state rest

/-- The identifiers of the catalog entries whose status is non-terminal
(`processing` is the only non-terminal status). This is the spec's
definition of the Processing Indicator Set, used to check the invariant the
spec asserts about `processingDocuments`. -/
def nonTerminalIds (docs : List LightRAGDocument) : List String :=
  (docs.filter (fun d => d.status = DocStatus.processing)).map (fun d => d.id)

/-- An empty initial hook state (all `useState` initial values). -/
def initialState : HookState :=
  { documents := []
    documentsLoading := false
    uploading := false
    querying := false
    processingDocuments := []
    updateTrigger := 0 }

/-- The `status_summary` counts read by `checkUploadComplete` from the
track-status body: `data.status_summary?.processed` and
`data.status_summary?.processing`. The code reads only these two counts;
an absent field (or absent summary) behaves exactly like the count `0`
under the JS truthiness tests used (`x > 0` and `!x`), so both are embedded
as `Nat`. -/
structure StatusSummary where
  processed : Nat
  processing : Nat
deriving DecidableEq, Repr

/-- Result of one track-status fetch inside `checkUploadComplete`. -/
inductive TrackResponse where
  | ok (summary : StatusSummary)
  | httpError (status : Nat)
  | networkError (message : String)
deriving DecidableEq, Repr

/-- How one reconciliation sequence ended. -/
inductive PollOutcome where
  /-- The `isComplete` branch ran: a final refresh and stop. -/
  | resolved
  /-- The final `else` branch ran (attempt budget at zero while still
  processing, or status unclear): a final refresh and stop. -/
  | exhausted
  /-- The status query failed (`!response.ok` early return, or a thrown
  error caught and only logged): stop with no refresh. -/
  | aborted
  /-- The supplied response stream ended while another attempt was
  scheduled via `setTimeout`. -/
  | pending
deriving DecidableEq, Repr

/-- Everything observable about one reconciliation sequence: how many
status queries it issued, how many catalog refreshes it triggered, the
toasts it raised itself, and how it ended. -/
structure PollTrace where
  queries : Nat
  refreshes : Nat
  toasts : List Toast
  outcome : PollOutcome
deriving DecidableEq, Repr

/-- `checkUploadComplete` (lines 154–187), run against a stream of
track-status responses (one per attempt, in order). Each recursive call
consumes one response:
`isComplete = processed > 0 && !processing` stops with one refresh;
`isStillProcessing = processing > 0` together with `maxAttempts > 0`
schedules `checkUploadComplete(trackId, maxAttempts - 1)`; the remaining
`else` stops with one refresh; a non-ok response returns immediately and a
thrown error is caught and only logged — both stop with no refresh and no
toast. -/
def checkUploadComplete (maxAttempts : Nat) (responses : List TrackResponse) :
    PollTrace :=
  match responses with
  | [] => { queries := 0, refreshes := 0, toasts := [], outcome := PollOutcome.pending }
  | r :: rest =>
    match r with
    | TrackResponse.httpError _ =>
      { queries := 1, refreshes := 0, toasts := [], outcome := PollOutcome.aborted }
    | TrackResponse.networkError _ =>
      { queries := 1, refreshes := 0, toasts := [], outcome := PollOutcome.aborted }
    | TrackResponse.ok summary =>
      if summary.processed > 0 ∧ summary.processing = 0 then
        { queries := 1, refreshes := 1, toasts := [], outcome := PollOutcome.resolved }
      else if summary.processing > 0 ∧ maxAttempts > 0 then
        let t := checkUploadComplete (maxAttempts - 1) rest
        { queries := t.queries + 1, refreshes := t.refreshes,
          toasts := t.toasts, outcome := t.outcome }
      else
        { queries := 1, refreshes := 1, toasts := [], outcome := PollOutcome.exhausted }

/-- A track-status response on which `checkUploadComplete` keeps polling
when attempts remain: `isStillProcessing` holds (`processing > 0`), which
also forces `isComplete` false. -/
def isNonTerminalResp : TrackResponse → Bool
  | TrackResponse.ok s => decide (s.processing > 0)
  | TrackResponse.httpError _ => false
  | TrackResponse.networkError _ => false

/-- The default attempt budget of `checkUploadComplete`
(`maxAttempts: number = 10`). -/
def defaultMaxAttempts : Nat := 10

/-- Everything observable about one `uploadFile` / `uploadText` call. -/
structure UploadResult where
  state : HookState
  returned : Option LightRAGUploadResponse
  toasts : List Toast
  /-- whether the 1-second `setTimeout(listDocuments)` refresh was scheduled -/
  delayedRefreshScheduled : Bool
  /-- the tracking handle handed to `checkUploadComplete` via the 3-second
  `setTimeout`, when one was -/
  reconciliationHandle : Option String
deriving DecidableEq, Repr

/-- `uploadFile` (lines 190–242). `uploading` is set on entry and cleared in
`finally`. On `status === "success"`: an immediate inline `listDocuments`
(its list response is the `listResp` argument), a delayed refresh scheduled
at 1s, and — only when `result.track_id` is present — `checkUploadComplete`
scheduled at 3s with that handle. On `status === "duplicated"`: a warning
toast and nothing scheduled. Any other parsed status: nothing at all. On a
non-ok response the code throws `Upload failed: statusText` and the catch
handler renders the `Error` object into
`Failed to upload file: Error: Upload failed: statusText`, returning
`null`. -/
def uploadFile (s : HookState) (r : FetchResult LightRAGUploadResponse)
    (listResp : FetchResult LightRAGDocumentsResponse) : UploadResult :=
  match r with
  | FetchResult.ok result =>
    match result.status with
    | UploadStatus.success =>
      let refreshed := listDocuments { s with uploading := true } listResp
      { state := { refreshed.state with uploading := false },
        returned := some result,
        toasts := refreshed.toasts,
        delayedRefreshScheduled := true,
        reconciliationHandle := result.track_id }
    | UploadStatus.duplicated =>
      { state := { s with uploading := false },
        returned := some result,
        toasts := [Toast.warning result.message],
        delayedRefreshScheduled := false,
        reconciliationHandle := none }
    | UploadStatus.error =>
      { state := { s with uploading := false },
        returned := some result,
        toasts := [],
        delayedRefreshScheduled := false,
        reconciliationHandle := none }
  | FetchResult.httpError _ statusText =>
    { state := { s with uploading := false },
      returned := none,
      toasts := [Toast.error ("Failed to upload file: Error: Upload failed: " ++ statusText)],
      delayedRefreshScheduled := false,
      reconciliationHandle := none }
  | FetchResult.networkError message =>
    { state := { s with uploading := false },
      returned := none,
      toasts := [Toast.error ("Failed to upload file: " ++ message)],
      delayedRefreshScheduled := false,
      reconciliationHandle := none }

/-- `uploadText` (lines 245–299). Identical control flow to `uploadFile`
except for the payload encoding and the error strings — and the absence of
a `duplicated` branch: the code only tests `result.status === "success"`,
so a duplicated (or error) response is returned to the caller with no
toast and nothing scheduled. -/
def uploadText (s : HookState) (r : FetchResult LightRAGUploadResponse)
    (listResp : FetchResult LightRAGDocumentsResponse) : UploadResult :=
  match r with
  | FetchResult.ok result =>
    match result.status with
    | UploadStatus.success =>
      let refreshed := listDocuments { s with uploading := true } listResp
      { state := { refreshed.state with uploading := false },
        returned := some result,
        toasts := refreshed.toasts,
        delayedRefreshScheduled := true,
        reconciliationHandle := result.track_id }
    | UploadStatus.duplicated =>
      { state := { s with uploading := false },
        returned := some result,
        toasts := [],
        delayedRefreshScheduled := false,
        reconciliationHandle := none }
    | UploadStatus.error =>
      { state := { s with uploading := false },
        returned := some result,
        toasts := [],
        delayedRefreshScheduled := false,
        reconciliationHandle := none }
  | FetchResult.httpError _ statusText =>
    { state := { s with uploading := false },
      returned := none,
      toasts := [Toast.error ("Failed to upload text: Error: Text upload failed: " ++ statusText)],
      delayedRefreshScheduled := false,
      reconciliationHandle := none }
  | FetchResult.networkError message =>
    { state := { s with uploading := false },
      returned := none,
      toasts := [Toast.error ("Failed to upload text: " ++ message)],
      delayedRefreshScheduled := false,
      reconciliationHandle := none }

/-- The JSON body `deleteDocument` sends:
`{ doc_ids: [documentId], delete_file: true }`. -/
structure DeleteDocumentRequest where
  doc_ids : List String
  delete_file : Bool
deriving DecidableEq, Repr

/-- The request body built by `deleteDocument` for a given document id
(lines 312–315): the `delete_file` flag is the literal `true`; the function
has no other parameter, so no caller can submit this request with the flag
unset. -/
def deleteDocumentRequest (documentId : String) : DeleteDocumentRequest :=
  { doc_ids := [documentId], delete_file := true }

/-- Everything observable about one `deleteDocument` call. -/
structure DeleteDocResult where
  returned : Bool
  toasts : List Toast
  /-- whether the 1-second delayed `listDocuments` refresh was scheduled -/
  refreshScheduled : Bool
  /-- the request body that was sent -/
  request : DeleteDocumentRequest
deriving DecidableEq, Repr

/-- `deleteDocument` (lines 302–331): sends `deleteDocumentRequest`; on
success, a success toast, a delayed refresh at 1s and `true`; on a non-ok
response or a thrown error, an error toast and `false`. It never mutates
the local state directly. -/
def deleteDocument (documentId : String) (r : FetchResult Unit) : DeleteDocResult :=
  match r with
  | FetchResult.ok _ =>
    { returned := true,
      toasts := [Toast.success "Document deletion initiated. Processing in background..."],
      refreshScheduled := true,
      request := deleteDocumentRequest documentId }
  | FetchResult.httpError _ statusText =>
    { returned := false,
      toasts := [Toast.error ("Failed to delete document: Error: Delete failed: " ++ statusText)],
      refreshScheduled := false,
      request := deleteDocumentRequest documentId }
  | FetchResult.networkError message =>
    { returned := false,
      toasts := [Toast.error ("Failed to delete document: " ++ message)],
      refreshScheduled := false,
      request := deleteDocumentRequest documentId }

/-- Everything observable about one `clearDocuments` call. -/
structure ClearResult where
  state : HookState
  returned : Bool
  toasts : List Toast
deriving DecidableEq, Repr

/-- `clearDocuments` (lines 370–389): issues the delete-all request; only
after the response is checked ok does it run `setDocuments([])` and return
`true`; on a non-ok response or a thrown error it raises an error toast and
returns `false`, touching no state. Note it never touches
`processingDocuments` on any path. -/
def clearDocuments (s : HookState) (r : FetchResult Unit) : ClearResult :=
  match r with
  | FetchResult.ok _ =>
    { state := { s with documents := [] },
      returned := true,
      toasts := [Toast.success "All documents cleared successfully"] }
  | FetchResult.httpError _ statusText =>
    { state := s,
      returned := false,
      toasts := [Toast.error ("Failed to clear documents: Error: Clear failed: " ++ statusText)] }
  | FetchResult.networkError message =>
    { state := s,
      returned := false,
      toasts := [Toast.error ("Failed to clear documents: " ++ message)] }

/-! ## Helper lemmas -/

/-- Every `listDocuments` call issues exactly one list fetch, on every
outcome. -/
lemma listDocuments_fetches (s : HookState) (r : FetchResult LightRAGDocumentsResponse) :
    (listDocuments s r).fetches = 1 := by
  cases r <;> rfl

/-- A set of refresh calls issues one fetch per call: no coalescing. -/
lemma totalFetches_eq_length (l : List RefreshCall) :
    ∀ s, totalFetches s l = l.length := by
  induction l with
  | nil => intro s; rfl
  | cons c rest ih =>
    intro s
    simp [totalFetches, listDocuments_fetches, ih]
    omega

/-- Unfolding `checkUploadComplete` on a still-processing response with
attempts remaining. -/
lemma checkUploadComplete_cons_still (n : Nat) (s : StatusSummary)
    (rest : List TrackResponse) (hp : 0 < s.processing) (hn : 0 < n) :
    checkUploadComplete n (TrackResponse.ok s :: rest) =
      { queries := (checkUploadComplete (n - 1) rest).queries + 1,
        refreshes := (checkUploadComplete (n - 1) rest).refreshes,
        toasts := (checkUploadComplete (n - 1) rest).toasts,
        outcome := (checkUploadComplete (n - 1) rest).outcome } := by
  have h1 : ¬(s.processed > 0 ∧ s.processing = 0) := by omega
  have h2 : s.processing > 0 ∧ n > 0 := ⟨hp, hn⟩
  simp only [checkUploadComplete, if_neg h1, if_pos h2]

/-- A block of still-processing responses within the attempt budget is
consumed one query at a time, leaving the trace of the remainder at the
reduced budget. -/
lemma checkUploadComplete_skip (rs : List TrackResponse) :
    ∀ n : Nat, ∀ tail : List TrackResponse, rs.length ≤ n →
    (∀ x ∈ rs, isNonTerminalResp x = true) →
    checkUploadComplete n (rs ++ tail) =
      { queries := (checkUploadComplete (n - rs.length) tail).queries + rs.length,
        refreshes := (checkUploadComplete (n - rs.length) tail).refreshes,
        toasts := (checkUploadComplete (n - rs.length) tail).toasts,
        outcome := (checkUploadComplete (n - rs.length) tail).outcome } := by
  induction rs with
  | nil => intro n tail _ _; simp
  | cons r rs ih =>
    intro n tail hlen hnt
    have hr : isNonTerminalResp r = true := hnt r (List.mem_cons_self r rs)
    match r with
    | TrackResponse.httpError st => simp [isNonTerminalResp] at hr
    | TrackResponse.networkError m => simp [isNonTerminalResp] at hr
    | TrackResponse.ok s =>
      have hp : 0 < s.processing := by simpa [isNonTerminalResp] using hr
      have hn : 0 < n := by
        have hl := hlen
        simp [List.length_cons] at hl
        omega
      rw [List.cons_append, checkUploadComplete_cons_still n s (rs ++ tail) hp hn]
      have hlen' : rs.length ≤ n - 1 := by
        simp [List.length_cons] at hlen
        omega
      rw [ih (n - 1) tail hlen' (fun x hx => hnt x (List.mem_cons_of_mem _ hx))]
      have harith : n - 1 - rs.length = n - (rs.length + 1) := by omega
      simp [harith, List.length_cons]
      omega

/-- With the budget at zero and a still-processing response at the head,
the final `else` branch runs: one refresh, outcome exhausted, and the
remaining stream is never queried. -/
lemma checkUploadComplete_zero_still (s : StatusSummary) (tail : List TrackResponse)
    (hp : 0 < s.processing) :
    checkUploadComplete 0 (TrackResponse.ok s :: tail) =
      { queries := 1, refreshes := 1, toasts := [], outcome := PollOutcome.exhausted } := by
  have h1 : ¬(s.processed > 0 ∧ s.processing = 0) := by omega
  have h2 : ¬(s.processing > 0 ∧ (0 : Nat) > 0) := by omega
  simp only [checkUploadComplete, if_neg h1, if_neg h2]

/-- Shared exhaustion lemma: a budget of `n`, `n` still-processing
responses, then one more still-processing response ends the sequence in the
exhausted branch after `n + 1` queries with exactly one refresh and no
toast. -/
lemma checkUploadComplete_exhaust (n : Nat) (rs : List TrackResponse)
    (r : TrackResponse) (tail : List TrackResponse)
    (hlen : rs.length = n) (hnt : ∀ x ∈ rs, isNonTerminalResp x = true)
    (hr : isNonTerminalResp r = true) :
    checkUploadComplete n (rs ++ r :: tail) =
      { queries := n + 1, refreshes := 1, toasts := [], outcome := PollOutcome.exhausted } := by
  match r with
  | TrackResponse.httpError st => simp [isNonTerminalResp] at hr
  | TrackResponse.networkError m => simp [isNonTerminalResp] at hr
  | TrackResponse.ok s =>
    have hp : 0 < s.processing := by simpa [isNonTerminalResp] using hr
    rw [checkUploadComplete_skip rs n (TrackResponse.ok s :: tail) (by omega) hnt]
    rw [hlen, Nat.sub_self, checkUploadComplete_zero_still s tail hp]
    simp [Nat.add_comm]

/-- Shared abort lemma: when the status query at the head fails (non-ok or
thrown), the sequence stops with no refresh and no toast. -/
lemma checkUploadComplete_fail_head (n : Nat) (r : TrackResponse)
    (tail : List TrackResponse)
    (hr : (∃ st, r = TrackResponse.httpError st) ∨
          (∃ m, r = TrackResponse.networkError m)) :
    checkUploadComplete n (r :: tail) =
      { queries := 1, refreshes := 0, toasts := [], outcome := PollOutcome.aborted } := by
  rcases hr with ⟨st, rfl⟩ | ⟨m, rfl⟩ <;> rfl

/-! ## Concrete fixtures used by counterexamples and witnesses -/

/-- A concrete processed document with id `a`. -/
def docA : LightRAGDocument :=
  { id := "a", content_summary := "summary a", content_length := 3,
    status := DocStatus.processed, created_at := "t0", updated_at := "t0",
    track_id := none, chunks_count := 1, error_msg := none, file_path := "a.txt" }

/-- A concrete processed document with id `b`. -/
def docB : LightRAGDocument :=
  { id := "b", content_summary := "summary b", content_length := 4,
    status := DocStatus.processed, created_at := "t1", updated_at := "t1",
    track_id := none, chunks_count := 2, error_msg := none, file_path := "b.txt" }

/-- A concrete document that is still processing, with id `p1`. -/
def procDoc : LightRAGDocument :=
  { id := "p1", content_summary := "in flight", content_length := 5,
    status := DocStatus.processing, created_at := "t2", updated_at := "t2",
    track_id := some "t1", chunks_count := 0, error_msg := none, file_path := "p.txt" }

/-- List response holding only `docA`. -/
def respA : LightRAGDocumentsResponse :=
  { processed := [docA], processing := none, failed := none }

/-- List response holding only `docB`. -/
def respB : LightRAGDocumentsResponse :=
  { processed := [docB], processing := none, failed := none }

/-- List response holding only the still-processing `procDoc`. -/
def respProcessing : LightRAGDocumentsResponse :=
  { processed := [], processing := some [procDoc], failed := none }

/-- List response with every partition empty. -/
def emptyResp : LightRAGDocumentsResponse :=
  { processed := [], processing := none, failed := none }

/-- A refresh call that started first (at time 0) and was answered with
`respA`. -/
def earlyCall : RefreshCall :=
  { startTime := 0, response := FetchResult.ok respA }

/-- A refresh call that started later (at time 1) and was answered with
`respB`. -/
def lateCall : RefreshCall :=
  { startTime := 1, response := FetchResult.ok respB }

/-- A track-status response reporting one document still processing. -/
def ntResp : TrackResponse :=
  TrackResponse.ok { processed := 0, processing := 1 }

/-- A track-status response reporting completion: one processed document,
none still processing. -/
def doneResp : TrackResponse :=
  TrackResponse.ok { processed := 1, processing := 0 }

/-- A concrete duplicated upload response. -/
def dupResp : LightRAGUploadResponse :=
  { status := UploadStatus.duplicated, message := "Document already exists", track_id := none }

/-! ## Claim theorems -/

/-- Claim C1, counterexample. Two refresh calls overlap: `earlyCall` starts
at time 0, `lateCall` starts at time 1, and `lateCall`'s response arrives
first. The code orders by response arrival, so the earlier-started
request's response (`respA`) overwrites the later-started request's result
(`respB`): the final catalog is `[docA]`, not `allDocsOf respB = [docB]`,
refuting `no stale-overwrite by start time`. Moreover the two overlapping
calls issue two fetches, refuting `coalesced to at most one in-flight
fetch` (the code never consults `documentsLoading` before fetching). -/
theorem C1_counterexample_stale_overwrite :
    earlyCall.startTime < lateCall.startTime ∧
    (runCompletions initialState [lateCall, earlyCall]).documents = [docA] ∧
    allDocsOf respB = [docB] ∧
    ([docA] : List LightRAGDocument) ≠ [docB] ∧
    totalFetches initialState [lateCall, earlyCall] = 2 := by
  refine ⟨by decide, rfl, rfl, by decide, rfl⟩

/-- Claim C1, amended: the catalog after a set of interleaved refresh calls
equals the flattened body of whichever successful response ARRIVED last
(last-writer by response arrival, irrespective of request start times), and
the calls are not coalesced — `n` calls issue exactly `n` fetches. -/
theorem C1_last_arrival_wins (s : HookState) (cs : List RefreshCall)
    (c : RefreshCall) (data : LightRAGDocumentsResponse)
    (h : c.response = FetchResult.ok data) :
    (runCompletions s (cs ++ [c])).documents = allDocsOf data ∧
    totalFetches s (cs ++ [c]) = cs.length + 1 := by
  constructor
  · have hrun : runCompletions s (cs ++ [c]) =
        (listDocuments (runCompletions s cs) c.response).state := by
      simp [runCompletions, List.foldl_append]
    rw [hrun, h]
    rfl
  · rw [totalFetches_eq_length]
    simp

/-- Witness for `C1_last_arrival_wins`: with `earlyCall`'s response arriving
first and `lateCall`'s arriving last, the catalog is `lateCall`'s body. -/
theorem C1_last_arrival_wins_witness :
    (runCompletions initialState ([earlyCall] ++ [lateCall])).documents = allDocsOf respB ∧
    totalFetches initialState ([earlyCall] ++ [lateCall]) = [earlyCall].length + 1 :=
  C1_last_arrival_wins initialState [earlyCall] lateCall respB rfl

/-- Claim C2, counterexample. A reconciliation sequence whose very first
status query fails with HTTP 500 stops with ZERO catalog refreshes and
outcome `aborted` — the code returns from `!response.ok` before the final
`else` branch — refuting `transitions to Exhausted, triggers one final
catalog refresh()`. -/
theorem C2_counterexample_failed_query :
    checkUploadComplete defaultMaxAttempts [TrackResponse.httpError 500] =
      { queries := 1, refreshes := 0, toasts := [], outcome := PollOutcome.aborted } ∧
    (0 : Nat) ≠ 1 := by
  exact ⟨by decide, by decide⟩

/-- Claim C2, amended: if the status query itself fails (non-ok response or
network error) at any attempt, the sequence terminates silently — no final
refresh, no user-facing toast; only exhaustion of the attempt budget while
still non-terminal reaches the `Exhausted` branch with its one final
refresh, likewise with no user-facing toast. -/
theorem C2_failed_query_aborts (n st : Nat) (msg : String)
    (rs tail : List TrackResponse) (r : TrackResponse)
    (hlen : rs.length ≤ n) (hnt : ∀ x ∈ rs, isNonTerminalResp x = true) :
    (checkUploadComplete n (rs ++ TrackResponse.httpError st :: tail) =
      { queries := rs.length + 1, refreshes := 0, toasts := [],
        outcome := PollOutcome.aborted }) ∧
    (checkUploadComplete n (rs ++ TrackResponse.networkError msg :: tail) =
      { queries := rs.length + 1, refreshes := 0, toasts := [],
        outcome := PollOutcome.aborted }) ∧
    (rs.length = n → isNonTerminalResp r = true →
      checkUploadComplete n (rs ++ r :: tail) =
        { queries := n + 1, refreshes := 1, toasts := [],
          outcome := PollOutcome.exhausted }) := by
  refine ⟨?_, ?_, ?_⟩
  · rw [checkUploadComplete_skip rs n (TrackResponse.httpError st :: tail) hlen hnt]
    rw [checkUploadComplete_fail_head (n - rs.length) (TrackResponse.httpError st) tail
      (Or.inl ⟨st, rfl⟩)]
    simp [Nat.add_comm]
  · rw [checkUploadComplete_skip rs n (TrackResponse.networkError msg :: tail) hlen hnt]
    rw [checkUploadComplete_fail_head (n - rs.length) (TrackResponse.networkError msg) tail
      (Or.inr ⟨msg, rfl⟩)]
    simp [Nat.add_comm]
  · intro hlen' hr
    exact checkUploadComplete_exhaust n rs r tail hlen' hnt hr

/-- Witness for `C2_failed_query_aborts` at budget 1 after one
still-processing response. -/
theorem C2_failed_query_aborts_witness :
    ([ntResp].length ≤ 1 ∧ (∀ x ∈ [ntResp], isNonTerminalResp x = true)) ∧
    ((checkUploadComplete 1 ([ntResp] ++ TrackResponse.httpError 500 :: []) =
      { queries := [ntResp].length + 1, refreshes := 0, toasts := [],
        outcome := PollOutcome.aborted }) ∧
    (checkUploadComplete 1 ([ntResp] ++ TrackResponse.networkError "down" :: []) =
      { queries := [ntResp].length + 1, refreshes := 0, toasts := [],
        outcome := PollOutcome.aborted }) ∧
    ([ntResp].length = 1 → isNonTerminalResp ntResp = true →
      checkUploadComplete 1 ([ntResp] ++ ntResp :: []) =
        { queries := 1 + 1, refreshes := 1, toasts := [],
          outcome := PollOutcome.exhausted })) :=
  ⟨⟨by decide, by decide⟩,
    C2_failed_query_aborts 1 500 "down" [ntResp] [] ntResp (by decide) (by decide)⟩

/-- Claim C3, counterexample. On a `duplicated` server response the two
entry points do NOT behave identically: `uploadText` has no `duplicated`
branch, so it raises no warning toast, while `uploadFile` raises
`toast.warning`. This refutes both `the subsystem surfaces a non-fatal
warning` (for the text entry point) and `the two entry points behave
identically on this outcome`. -/
theorem C3_counterexample_text_silent :
    (uploadText initialState (FetchResult.ok dupResp) (FetchResult.ok respA)).toasts = [] ∧
    (uploadFile initialState (FetchResult.ok dupResp) (FetchResult.ok respA)).toasts =
      [Toast.warning "Document already exists"] ∧
    ([] : List Toast) ≠ [Toast.warning "Document already exists"] := by
  refine ⟨rfl, rfl, by decide⟩

/-- Claim C3, amended: on a `duplicated` response, submit-file surfaces a
non-fatal warning while submit-text surfaces nothing; both entry points
schedule no reconciliation sequence, no delayed refresh, and leave the
state (hence the catalog) untouched apart from clearing the transient
`uploading` flag, returning the raw response to the caller. -/
theorem C3_duplicated_behaviour (s : HookState) (resp : LightRAGUploadResponse)
    (listResp : FetchResult LightRAGDocumentsResponse)
    (h : resp.status = UploadStatus.duplicated) :
    uploadFile s (FetchResult.ok resp) listResp =
      { state := { s with uploading := false }, returned := some resp,
        toasts := [Toast.warning resp.message],
        delayedRefreshScheduled := false, reconciliationHandle := none } ∧
    uploadText s (FetchResult.ok resp) listResp =
      { state := { s with uploading := false }, returned := some resp,
        toasts := [],
        delayedRefreshScheduled := false, reconciliationHandle := none } := by
  obtain ⟨st, msg, tid⟩ := resp
  simp only at h
  subst h
  exact ⟨rfl, rfl⟩

/-- Witness for `C3_duplicated_behaviour` on the concrete `dupResp`. -/
theorem C3_duplicated_behaviour_witness :
    dupResp.status = UploadStatus.duplicated ∧
    (uploadFile initialState (FetchResult.ok dupResp) (FetchResult.ok respA) =
      { state := { initialState with uploading := false }, returned := some dupResp,
        toasts := [Toast.warning dupResp.message],
        delayedRefreshScheduled := false, reconciliationHandle := none } ∧
    uploadText initialState (FetchResult.ok dupResp) (FetchResult.ok respA) =
      { state := { initialState with uploading := false }, returned := some dupResp,
        toasts := [],
        delayedRefreshScheduled := false, reconciliationHandle := none }) :=
  ⟨rfl, C3_duplicated_behaviour initialState dupResp (FetchResult.ok respA) rfl⟩

/-- Claim C4, counterexample at `N = 1`. After exactly `N` consecutive
non-terminal responses the sequence has NOT transitioned to `Exhausted` and
has triggered no refresh — another attempt is pending — and when that
pending attempt runs it performs a further (N+1-th) status query before
exhausting. This refutes `receives exactly N consecutive non-terminal
status responses then transitions to Exhausted, performing no further
status queries`: exhaustion takes N+1 non-terminal responses. -/
theorem C4_counterexample_extra_attempt :
    (checkUploadComplete 1 [ntResp] =
      { queries := 1, refreshes := 0, toasts := [], outcome := PollOutcome.pending }) ∧
    (checkUploadComplete 1 [ntResp, ntResp] =
      { queries := 2, refreshes := 1, toasts := [], outcome := PollOutcome.exhausted }) := by
  exact ⟨by decide, by decide⟩

/-- Claim C4, amended: a sequence with attempt budget `N` that receives
`N + 1` consecutive non-terminal status responses (one per attempt,
including the final zero-budget attempt) transitions to `Exhausted`,
performs no further status queries (exactly `N + 1` in total, whatever
responses remain available), and triggers exactly one additional catalog
refresh. -/
theorem C4_exhausted_after_budget (n : Nat) (rs tail : List TrackResponse)
    (r : TrackResponse) (hlen : rs.length = n)
    (hnt : ∀ x ∈ rs, isNonTerminalResp x = true) (hr : isNonTerminalResp r = true) :
    checkUploadComplete n (rs ++ r :: tail) =
      { queries := n + 1, refreshes := 1, toasts := [],
        outcome := PollOutcome.exhausted } :=
  checkUploadComplete_exhaust n rs r tail hlen hnt hr

/-- Witness for `C4_exhausted_after_budget` at budget 2 with a spare
response left unqueried. -/
theorem C4_exhausted_after_budget_witness :
    ([ntResp, ntResp].length = 2 ∧ (∀ x ∈ [ntResp, ntResp], isNonTerminalResp x = true) ∧
      isNonTerminalResp ntResp = true) ∧
    checkUploadComplete 2 ([ntResp, ntResp] ++ ntResp :: [doneResp]) =
      { queries := 2 + 1, refreshes := 1, toasts := [],
        outcome := PollOutcome.exhausted } :=
  ⟨⟨by decide, by decide, by decide⟩,
    C4_exhausted_after_budget 2 [ntResp, ntResp] [doneResp] ntResp rfl
      (by decide) (by decide)⟩

/-- Claim C5, confirmed: if attempt `k ≤ N` (reached after `k - 1`
non-terminal responses) returns a summary with at least one processed
document and a zero processing count, the sequence takes the `isComplete`
branch: outcome `resolved`, exactly one final refresh, exactly `k` status
queries in total — no further polling regardless of what responses remain
available — and no toast. -/
theorem C5_resolved_stops_polling (n k : Nat) (rs tail : List TrackResponse)
    (s : StatusSummary) (hk : k ≤ n) (hlen : rs.length + 1 = k)
    (hnt : ∀ x ∈ rs, isNonTerminalResp x = true)
    (hdone : 0 < s.processed) (hnone : s.processing = 0) :
    checkUploadComplete n (rs ++ TrackResponse.ok s :: tail) =
      { queries := k, refreshes := 1, toasts := [], outcome := PollOutcome.resolved } := by
  rw [checkUploadComplete_skip rs n (TrackResponse.ok s :: tail) (by omega) hnt]
  have hcomplete : s.processed > 0 ∧ s.processing = 0 := ⟨hdone, hnone⟩
  simp only [checkUploadComplete, if_pos hcomplete]
  simp
  omega

/-- Witness for `C5_resolved_stops_polling`: budget 10, completion at
attempt 3, with a spare response left unqueried. -/
theorem C5_resolved_stops_polling_witness :
    ((3 : Nat) ≤ 10 ∧ [ntResp, ntResp].length + 1 = 3 ∧
      (∀ x ∈ [ntResp, ntResp], isNonTerminalResp x = true) ∧
      (0 : Nat) < (1 : Nat) ∧ (0 : Nat) = (0 : Nat)) ∧
    checkUploadComplete 10
        ([ntResp, ntResp] ++ TrackResponse.ok { processed := 1, processing := 0 } :: [ntResp]) =
      { queries := 3, refreshes := 1, toasts := [], outcome := PollOutcome.resolved } :=
  ⟨⟨by decide, by decide, by decide, by decide, rfl⟩,
    C5_resolved_stops_polling 10 3 [ntResp, ntResp] [ntResp]
      { processed := 1, processing := 0 } (by decide) (by decide) (by decide)
      (by decide) rfl⟩

/-- Claim C6, confirmed: when the upload fetch returns a non-success HTTP
status, `uploadFile` returns the null sentinel to its caller and surfaces
the transport failure as a fatal-to-this-call error toast; the catalog
snapshot and the processing-indicator set are unchanged, no delayed refresh
is scheduled, and no reconciliation sequence is started. -/
theorem C6_transport_error_upload (s : HookState) (status : Nat)
    (statusText : String) (listResp : FetchResult LightRAGDocumentsResponse) :
    (uploadFile s (FetchResult.httpError status statusText) listResp).returned = none ∧
    (uploadFile s (FetchResult.httpError status statusText) listResp).toasts =
      [Toast.error ("Failed to upload file: Error: Upload failed: " ++ statusText)] ∧
    (uploadFile s (FetchResult.httpError status statusText) listResp).state.documents =
      s.documents ∧
    (uploadFile s (FetchResult.httpError status statusText) listResp).state.processingDocuments =
      s.processingDocuments ∧
    (uploadFile s (FetchResult.httpError status statusText) listResp).delayedRefreshScheduled =
      false ∧
    (uploadFile s (FetchResult.httpError status statusText) listResp).reconciliationHandle =
      none :=
  ⟨rfl, rfl, rfl, rfl, rfl, rfl⟩

/-- Claim C7, confirmed: `clearDocuments` empties the local catalog only
when the delete-all request succeeds; on a non-ok response or a network
error the entire local state is exactly what it was before the call. -/
theorem C7_clear_only_on_success (s : HookState) (status : Nat)
    (statusText message : String) :
    (clearDocuments s (FetchResult.ok ())).state.documents = [] ∧
    (clearDocuments s (FetchResult.ok ())).returned = true ∧
    (clearDocuments s (FetchResult.httpError status statusText)).state = s ∧
    (clearDocuments s (FetchResult.httpError status statusText)).returned = false ∧
    (clearDocuments s (FetchResult.networkError message)).state = s ∧
    (clearDocuments s (FetchResult.networkError message)).returned = false :=
  ⟨rfl, rfl, rfl, rfl, rfl, rfl⟩

/-- Claim C8, counterexample. Reachable state violating the invariant:
refresh with one still-processing document, then a successful `clear()`.
`clearDocuments` runs `setDocuments([])` but never touches
`processingDocuments`, so the indicator set still holds `p1` while the
catalog has no non-terminal entry — refuting `in every reachable state the
Processing Indicator Set equals exactly the identifiers of catalog entries
whose status is non-terminal` and `every operation that replaces the
catalog recomputes it synchronously`. -/
theorem C8_counterexample_stale_after_clear :
    ((clearDocuments (listDocuments initialState (FetchResult.ok respProcessing)).state
        (FetchResult.ok ())).state.processingDocuments = ["p1"]) ∧
    nonTerminalIds ((clearDocuments (listDocuments initialState
        (FetchResult.ok respProcessing)).state (FetchResult.ok ())).state.documents) = [] ∧
    (["p1"] : List String) ≠ [] := by
  refine ⟨rfl, rfl, by decide⟩

/-- Claim C8, amended: every successful refresh recomputes the indicator
set synchronously, and whenever the server's partitions agree with the
documents' status fields the recomputed set equals the identifiers of the
non-terminal catalog entries; `clear()`, however, replaces the catalog
without recomputing the indicator set (it is left verbatim), so the
invariant can fail after a successful `clear()` until the next refresh. -/
theorem C8_indicator_recomputed_on_refresh (s : HookState)
    (data : LightRAGDocumentsResponse)
    (hp : ∀ d ∈ data.processed, d.status = DocStatus.processed)
    (hq : ∀ d ∈ data.processing.getD [], d.status = DocStatus.processing)
    (hf : ∀ d ∈ data.failed.getD [], d.status = DocStatus.failed) :
    (listDocuments s (FetchResult.ok data)).state.processingDocuments =
      nonTerminalIds (listDocuments s (FetchResult.ok data)).state.documents ∧
    ∀ t : HookState,
      (clearDocuments t (FetchResult.ok ())).state.processingDocuments =
        t.processingDocuments := by
  constructor
  · simp only [listDocuments, nonTerminalIds, allDocsOf]
    rw [List.filter_append, List.filter_append]
    have h1 : data.processed.filter (fun d => decide (d.status = DocStatus.processing)) = [] := by
      rw [List.filter_eq_nil_iff]
      intro d hd
      simp [hp d hd]
    have h2 : (data.processing.getD []).filter
        (fun d => decide (d.status = DocStatus.processing)) = data.processing.getD [] := by
      rw [List.filter_eq_self]
      intro d hd
      simp [hq d hd]
    have h3 : (data.failed.getD []).filter
        (fun d => decide (d.status = DocStatus.processing)) = [] := by
      rw [List.filter_eq_nil_iff]
      intro d hd
      simp [hf d hd]
    rw [h1, h2, h3]
    simp
  · intro t
    rfl

/-- Witness for `C8_indicator_recomputed_on_refresh` on the concrete
response holding one still-processing document. -/
theorem C8_indicator_recomputed_on_refresh_witness :
    ((∀ d ∈ respProcessing.processed, d.status = DocStatus.processed) ∧
      (∀ d ∈ respProcessing.processing.getD [], d.status = DocStatus.processing) ∧
      (∀ d ∈ respProcessing.failed.getD [], d.status = DocStatus.failed)) ∧
    ((listDocuments initialState (FetchResult.ok respProcessing)).state.processingDocuments =
      nonTerminalIds (listDocuments initialState
        (FetchResult.ok respProcessing)).state.documents ∧
    ∀ t : HookState,
      (clearDocuments t (FetchResult.ok ())).state.processingDocuments =
        t.processingDocuments) :=
  ⟨⟨by decide, by decide, by decide⟩,
    C8_indicator_recomputed_on_refresh initialState respProcessing
      (by decide) (by decide) (by decide)⟩

/-- Claim C9, confirmed: on a non-ok response or a network error,
`listDocuments` leaves `documents` and `processingDocuments` untouched and
returns `[]` to its caller instead of propagating the failure; a successful
refresh of an empty catalog also returns `[]`, so the return value alone
cannot distinguish the two. -/
theorem C9_failed_refresh_silent (s : HookState) (status : Nat)
    (statusText message : String) :
    (listDocuments s (FetchResult.httpError status statusText)).state.documents =
      s.documents ∧
    (listDocuments s (FetchResult.httpError status statusText)).state.processingDocuments =
      s.processingDocuments ∧
    (listDocuments s (FetchResult.httpError status statusText)).returned = [] ∧
    (listDocuments s (FetchResult.networkError message)).state.documents = s.documents ∧
    (listDocuments s (FetchResult.networkError message)).state.processingDocuments =
      s.processingDocuments ∧
    (listDocuments s (FetchResult.networkError message)).returned = [] ∧
    (listDocuments s (FetchResult.ok emptyResp)).returned = [] :=
  ⟨rfl, rfl, rfl, rfl, rfl, rfl, rfl⟩

/-- Claim C10, confirmed: the request body `deleteDocument` sends always
carries `delete_file = true` and targets exactly the supplied id; the
function has no parameter that could preserve the stored content, on any
fetch outcome. -/
theorem C10_delete_file_always_true (documentId : String) (r : FetchResult Unit) :
    (deleteDocument documentId r).request.delete_file = true ∧
    (deleteDocument documentId r).request.doc_ids = [documentId] := by
  cases r <;> exact ⟨rfl, rfl⟩

end UseLightRAG
